import Mathlib

/-!
Shallow embedding of `src/src/main.cpp`, a NeoPixel LED-strip controller.
The firmware keeps a single global state (effect mode, solid color,
brightness, active pixel count, dirty flags, snake cursor, fade-blend
endpoints, animator channel) and a 144-pixel buffer.  Float arithmetic in
the color math is modelled exactly over ℚ; the C++ `static_cast<uint8_t>`
of a non-negative in-range float is truncation, modelled as `Int.floor`
followed by `Int.toNat`.  Wall-clock time, the random hue and the random
duration enter as explicit parameters.
-/

namespace NeoPixelCtrl

/-- MaxPixelCount from main.cpp line 16. -/
def MaxPixelCount : Nat := 144

/-- SnakeSegmentLength from main.cpp line 19. -/
def SnakeSegmentLength : Nat := 5

/-- SnakeStepDelayMs from main.cpp line 20. -/
def SnakeStepDelayMs : Nat := 80

/-- RGB triple, each channel a uint8 value (held as Nat, kept in 0..255). -/
structure RgbColor where
  R : Nat
  G : Nat
  B : Nat
deriving DecidableEq, Repr

/-- RgbColor(0): all channels zero. -/
def black : RgbColor := ⟨0, 0, 0⟩

/-- EffectMode enum from main.cpp lines 48-54. -/
inductive EffectMode where
  | Fade
  | Solid
  | Snake
  | Off
deriving DecidableEq, Repr

/-- The whole mutable global state of the firmware: StripState (effect,
solidColor, brightness), pixelCount, the three dirty flags, fadeToColor,
the snake cursor, fadeChannels[0], the animator channel (active flag,
duration, remaining time), and the strip pixel buffer. -/
structure Machine where
  effect : EffectMode
  solidColor : RgbColor
  brightness : Nat
  pixelCount : Nat
  solidDirty : Bool
  offDirty : Bool
  snakeDirty : Bool
  fadeToColor : Bool
  snakeHead : Nat
  lastSnakeStepMs : Nat
  startingColor : RgbColor
  endingColor : RgbColor
  animActive : Bool
  animDuration : Nat
  animRemaining : Nat
  strip : List RgbColor
deriving DecidableEq, Repr

/-- Initial global state: main.cpp lines 22, 35-38, 56-65; the strip
buffer is zeroed by `strip.Begin()`. -/
def initialState : Machine :=
  { effect := EffectMode.Fade
    solidColor := ⟨255, 80, 10⟩
    brightness := 160
    pixelCount := 12
    solidDirty := true
    offDirty := true
    snakeDirty := true
    fadeToColor := true
    snakeHead := 0
    lastSnakeStepMs := 0
    startingColor := black
    endingColor := black
    animActive := false
    animDuration := 0
    animRemaining := 0
    strip := List.replicate MaxPixelCount black }

/-- Arduino constrain on naturals. -/
def constrainN (v lo hi : Nat) : Nat := max lo (min v hi)

/-- Arduino constrain on ints (used in handleControlRequest). -/
def constrainI (v lo hi : Int) : Int := max lo (min v hi)

/-- Arduino constrain on rationals (used in scaleColor). -/
def constrainQ (v lo hi : ℚ) : ℚ := max lo (min v hi)

/-- C++ truncation of a non-negative float to uint8: floor to Nat
(computed on the numerator and denominator so it evaluates). -/
def u8trunc (q : ℚ) : Nat := q.num.toNat / q.den

/-- brightnessScale (main.cpp 328-332): (brightness/255)^2. -/
def brightnessScale (s : Machine) : ℚ :=
  let percent : ℚ := (s.brightness : ℚ) / 255
  percent * percent

/-- brightnessToLuminance (main.cpp 334-342). -/
def brightnessToLuminance (s : Machine) : ℚ :=
  let luminance := brightnessScale s * (1 / 2)
  if s.brightness = 0 then 0 else max (2 / 1000) luminance

/-- scaleColor (main.cpp 349-356). -/
def scaleColor (c : RgbColor) (scale : ℚ) : RgbColor :=
  let clamped := constrainQ scale 0 1
  ⟨u8trunc ((c.R : ℚ) * clamped), u8trunc ((c.G : ℚ) * clamped),
   u8trunc ((c.B : ℚ) * clamped)⟩

/-- applyBrightness (main.cpp 344-347). -/
def applyBrightness (s : Machine) (c : RgbColor) : RgbColor :=
  scaleColor c (brightnessScale s)

/-- One channel of RgbColor::LinearBlend: uint8(l + (r - l) * progress). -/
def blendChannel (l r : Nat) (p : ℚ) : Nat :=
  u8trunc ((l : ℚ) + ((r : ℚ) - (l : ℚ)) * p)

/-- RgbColor::LinearBlend of the NeoPixelBus library. -/
def linearBlend (l r : RgbColor) (p : ℚ) : RgbColor :=
  ⟨blendChannel l.R r.R p, blendChannel l.G r.G p, blendChannel l.B r.B p⟩

/-- Hue helper of the NeoPixelBus HslColor-to-RgbColor conversion
(standard hue-to-channel function). -/
def calcHue (p q t : ℚ) : ℚ :=
  let t := if t < 0 then t + 1 else t
  let t := if t > 1 then t - 1 else t
  if t < 1 / 6 then p + (q - p) * 6 * t
  else if t < 1 / 2 then q
  else if t < 2 / 3 then p + (q - p) * (2 / 3 - t) * 6
  else p

/-- NeoPixelBus HslColor(h, s, l) converted to RgbColor (standard HSL to
RGB conversion, channels truncated from value * 255). -/
def hslToRgb (h sat l : ℚ) : RgbColor :=
  if sat = 0 then
    let v := u8trunc (l * 255)
    ⟨v, v, v⟩
  else
    let q := if l < 1 / 2 then l * (1 + sat) else l + sat - l * sat
    let p := 2 * l - q
    ⟨u8trunc (calcHue p q (h + 1 / 3) * 255),
     u8trunc (calcHue p q h * 255),
     u8trunc (calcHue p q (h - 1 / 3) * 255)⟩

/-- modeToString (main.cpp 227-240). -/
def modeToString (mode : EffectMode) : String :=
  match mode with
  | EffectMode.Solid => "solid"
  | EffectMode.Snake => "snake"
  | EffectMode.Off => "off"
  | EffectMode.Fade => "fade"

/-- Arduino String.toLowerCase: ASCII lowercasing of every character. -/
def strToLower (v : String) : String := ⟨v.data.map Char.toLower⟩

/-- applyModeFromString (main.cpp 242-281).  Returns the `changed` flag
together with the updated state. -/
def applyModeFromString (s : Machine) (value : String) : Bool × Machine :=
  let lowered := strToLower value
  let next? : Option EffectMode :=
    if lowered = "solid" then some EffectMode.Solid
    else if lowered = "off" then some EffectMode.Off
    else if lowered = "fade" then some EffectMode.Fade
    else if lowered = "snake" then some EffectMode.Snake
    else none
  match next? with
  | none => (false, s)
  | some next =>
    if s.effect = next then (false, s)
    else
      (true, { s with
        effect := next
        animActive := false
        fadeToColor := true
        solidDirty := true
        offDirty := true
        snakeDirty := true })

/-- setSolidColor (main.cpp 283-294). -/
def setSolidColor (s : Machine) (r g b : Nat) : Bool × Machine :=
  if s.solidColor.R = r ∧ s.solidColor.G = g ∧ s.solidColor.B = b then
    (false, s)
  else
    (true, { s with
      solidColor := ⟨r, g, b⟩
      solidDirty := true
      snakeDirty := true })

/-- setBrightness (main.cpp 296-310). -/
def setBrightness (s : Machine) (value : Nat) : Bool × Machine :=
  let constrained := constrainN value 0 255
  if s.brightness = constrained then (false, s)
  else
    (true, { s with
      brightness := constrained
      solidDirty := true
      offDirty := true
      snakeDirty := true
      animActive := false })

/-- setPixelCount (main.cpp 312-326). -/
def setPixelCount (s : Machine) (count : Nat) : Bool × Machine :=
  let newCount := constrainN count 1 MaxPixelCount
  if s.pixelCount = newCount then (false, s)
  else
    (true, { s with
      pixelCount := newCount
      solidDirty := true
      offDirty := true
      snakeDirty := true
      animActive := false })

/-- writeColorToActivePixels (main.cpp 358-369): every index below
pixelCount gets the color, every index from pixelCount to MaxPixelCount
is forced to black. -/
def writeColorToActivePixels (s : Machine) (c : RgbColor) : Machine :=
  { s with strip := List.ofFn fun i : Fin MaxPixelCount =>
      if (i : Nat) < s.pixelCount then c else black }

/-- applySolidColor (main.cpp 371-377). -/
def applySolidColor (s : Machine) : Machine :=
  let s1 := writeColorToActivePixels s (applyBrightness s s.solidColor)
  { s1 with solidDirty := false, offDirty := true }

/-- turnStripOff (main.cpp 379-385). -/
def turnStripOff (s : Machine) : Machine :=
  let s1 := writeColorToActivePixels s black
  { s1 with offDirty := false, solidDirty := true }

/-- resetSnakeEffect (main.cpp 387-394). -/
def resetSnakeEffect (s : Machine) : Machine :=
  let s1 := { s with snakeHead := 0, lastSnakeStepMs := 0, snakeDirty := false }
  writeColorToActivePixels s1 black

/-- The segment-drawing for loop of runSnakeEffect (main.cpp 413-423):
offsets run from `offset` while fuel lasts; the loop breaks as soon as
head + offset reaches pixelCount. -/
def snakeLoop (base : RgbColor) (head count : Nat) :
    Nat → Nat → List RgbColor → List RgbColor
  | _, 0, strip => strip
  | offset, fuel + 1, strip =>
    let pixel := head + offset
    if count ≤ pixel then strip
    else
      snakeLoop base head count (offset + 1) fuel
        (strip.set pixel
          (scaleColor base (1 - (offset : ℚ) / (SnakeSegmentLength : ℚ))))

/-- runSnakeEffect (main.cpp 396-428), with the current millis clock as a
parameter. -/
def runSnakeEffect (s : Machine) (now : Nat) : Machine :=
  let s1 := if s.snakeDirty then resetSnakeEffect s else s
  if s1.lastSnakeStepMs ≠ 0 ∧ now - s1.lastSnakeStepMs < SnakeStepDelayMs then
    s1
  else
    let s2 := { s1 with lastSnakeStepMs := now }
    let base := applyBrightness s2 s2.solidColor
    let s3 := writeColorToActivePixels s2 black
    let s4 := { s3 with
      strip := snakeLoop base s3.snakeHead s3.pixelCount 0 SnakeSegmentLength s3.strip }
    { s4 with snakeHead := (s4.snakeHead + 1) % s4.pixelCount }

/-- BlendAnimUpdate (main.cpp 491-503), with the animator progress as a
parameter. -/
def BlendAnimUpdate (s : Machine) (progress : ℚ) : Machine :=
  let updatedColor := linearBlend s.startingColor s.endingColor progress
  if s.effect = EffectMode.Fade then writeColorToActivePixels s updatedColor
  else s

/-- FadeInFadeOutRinseRepeat (main.cpp 505-530).  The random hue (0..359)
and random duration (2000..3999) are parameters; the target color is the
HSL color at that hue, saturation 1, the given luminance.  The starting
color of the new blend is the previous ending color when an animation is
in flight, and otherwise the color read back from strip pixel 0. -/
def FadeInFadeOutRinseRepeat (s : Machine) (hue360 dur : Nat)
    (luminance : ℚ) : Machine :=
  let target := hslToRgb ((hue360 : ℚ) / 360) 1 luminance
  let s1 :=
    if s.animActive then { s with startingColor := s.endingColor }
    else { s with startingColor := s.strip.getD 0 black }
  let s2 := { s1 with endingColor := target }
  { s2 with animActive := true, animDuration := dur, animRemaining := dur }

/-- NeoPixelAnimator.UpdateAnimations: advance the single channel by
`delta` milliseconds; the callback BlendAnimUpdate runs at the current
progress fraction, and the final run (remaining time exhausted) happens
at progress exactly 1, after which the channel is inactive. -/
def UpdateAnimations (s : Machine) (delta : Nat) : Machine :=
  if s.animActive then
    let remaining := s.animRemaining - delta
    let progress : ℚ :=
      ((s.animDuration : ℚ) - (remaining : ℚ)) / (s.animDuration : ℚ)
    let s1 := BlendAnimUpdate s progress
    if remaining = 0 then { s1 with animActive := false, animRemaining := 0 }
    else { s1 with animRemaining := remaining }
  else s

/-- ensureEffectIsRunning (main.cpp 430-477): one iteration of the mode
dispatch loop.  `now` is the millis clock (for the snake step), `delta`
the time advanced by UpdateAnimations, `hue360`/`dur` the random draws
used when a fade cycle starts. -/
def ensureEffectIsRunning (s : Machine) (now delta hue360 dur : Nat) : Machine :=
  match s.effect with
  | EffectMode.Fade =>
    let s1 := { s with offDirty := true, solidDirty := true }
    let s2 :=
      if s1.animActive then s1
      else FadeInFadeOutRinseRepeat s1 hue360 dur (brightnessToLuminance s1)
    UpdateAnimations s2 delta
  | EffectMode.Solid =>
    let s1 := { s with animActive := false }
    if s1.solidDirty then applySolidColor s1 else s1
  | EffectMode.Snake =>
    let s1 := { s with animActive := false, offDirty := true, solidDirty := true }
    runSnakeEffect s1 now
  | EffectMode.Off =>
    let s1 := { s with animActive := false }
    if s1.offDirty then turnStripOff s1 else s1

/-- Optional query parameters of a /api/control request. -/
structure ControlParams where
  mode : Option String
  brightness : Option Int
  count : Option Int
  r : Option Int
  g : Option Int
  b : Option Int

/-- handleControlRequest (main.cpp 169-208): applies each supplied
parameter in order (mode, brightness, count, then color, the last only
when r, g and b are all present), returning the `changed` flag ored over
the mutators. -/
def handleControlRequest (s : Machine) (p : ControlParams) : Bool × Machine :=
  let r1 : Bool × Machine :=
    match p.mode with
    | some m => applyModeFromString s m
    | none => (false, s)
  let r2 : Bool × Machine :=
    match p.brightness with
    | some v => setBrightness r1.2 (constrainI v 0 255).toNat
    | none => (false, r1.2)
  let r3 : Bool × Machine :=
    match p.count with
    | some v => setPixelCount r2.2 (constrainI v 1 (MaxPixelCount : Int)).toNat
    | none => (false, r2.2)
  let r4 : Bool × Machine :=
    match p.r, p.g, p.b with
    | some r, some g, some b =>
      setSolidColor r3.2 (constrainI r 0 255).toNat (constrainI g 0 255).toNat
        (constrainI b 0 255).toNat
    | _, _, _ => (false, r3.2)
  (r1.1 || r2.1 || r3.1 || r4.1, r4.2)

/-- A snake tick taken exactly when the step interval has elapsed:
runSnakeEffect at the moment the delay expires. -/
def snakeTick (s : Machine) : Machine :=
  runSnakeEffect s (s.lastSnakeStepMs + SnakeStepDelayMs)

theorem u8trunc_eq_floor (q : ℚ) (h : 0 ≤ q) : u8trunc q = (⌊q⌋).toNat := by
  have hnum : 0 ≤ q.num := Rat.num_nonneg.mpr h
  have hq : q.num = (q.num.toNat : ℤ) := (Int.toNat_of_nonneg hnum).symm
  rw [u8trunc, Rat.floor_def, hq]
  rw [← Int.natCast_div, Int.toNat_natCast, Int.toNat_natCast]

theorem u8trunc_natCast (n : Nat) : u8trunc (n : ℚ) = n := by
  rw [u8trunc_eq_floor _ (by positivity)]
  simp

theorem u8trunc_le (q : ℚ) (n : Nat) (hq : 0 ≤ q) (h : q ≤ (n : ℚ)) :
    u8trunc q ≤ n := by
  rw [u8trunc_eq_floor q hq]
  have hfl : ⌊q⌋ ≤ (n : ℤ) := by
    calc ⌊q⌋ ≤ ⌊(n : ℚ)⌋ := Int.floor_le_floor h
    _ = (n : ℤ) := by simp
  exact Int.toNat_le.mpr hfl

theorem constrainQ_unit_nonneg (q : ℚ) : 0 ≤ constrainQ q 0 1 :=
  le_max_left 0 _

theorem constrainQ_unit_le_one (q : ℚ) : constrainQ q 0 1 ≤ 1 :=
  max_le (by norm_num) (min_le_right q 1)

theorem constrainQ_of_mem (q : ℚ) (h0 : 0 ≤ q) (h1 : q ≤ 1) :
    constrainQ q 0 1 = q := by
  rw [constrainQ, min_eq_left h1, max_eq_right h0]

theorem scaleColor_channels_le (c : RgbColor) (q : ℚ) :
    (scaleColor c q).R ≤ c.R ∧ (scaleColor c q).G ≤ c.G ∧
      (scaleColor c q).B ≤ c.B := by
  have h0 := constrainQ_unit_nonneg q
  have h1 := constrainQ_unit_le_one q
  refine ⟨?_, ?_, ?_⟩ <;>
    exact u8trunc_le _ _ (by positivity)
      (by
        calc (_ : ℚ) * constrainQ q 0 1 ≤ _ * 1 :=
          mul_le_mul_of_nonneg_left h1 (by positivity)
        _ = _ := mul_one _)

theorem scaleColor_of_one_le (c : RgbColor) (q : ℚ) (h : 1 ≤ q) :
    scaleColor c q = c := by
  have : constrainQ q 0 1 = 1 := by
    rw [constrainQ, min_eq_right h]
    norm_num
  simp only [scaleColor, this, mul_one]
  cases c
  simp [u8trunc_natCast]

theorem scaleColor_zero (c : RgbColor) : scaleColor c 0 = black := by
  have : constrainQ 0 0 1 = 0 := constrainQ_of_mem 0 le_rfl (by norm_num)
  simp only [scaleColor, this, mul_zero]
  have h0 : u8trunc 0 = 0 := by
    have := u8trunc_natCast 0
    simpa using this
  simp [black, h0]

theorem scaleColor_black (q : ℚ) : scaleColor black q = black := by
  have h0 : u8trunc 0 = 0 := by
    have := u8trunc_natCast 0
    simpa using this
  simp [scaleColor, black, h0]

theorem brightnessScale_nonneg (s : Machine) : 0 ≤ brightnessScale s := by
  rw [brightnessScale]
  positivity

theorem brightnessScale_le_one (s : Machine) (h : s.brightness ≤ 255) :
    brightnessScale s ≤ 1 := by
  rw [brightnessScale]
  have hp : ((s.brightness : ℚ) / 255) ≤ 1 := by
    rw [div_le_one (by norm_num)]
    exact_mod_cast h
  have hn : (0 : ℚ) ≤ (s.brightness : ℚ) / 255 := by positivity
  calc (s.brightness : ℚ) / 255 * ((s.brightness : ℚ) / 255) ≤ 1 * 1 :=
    mul_le_mul hp hp hn (by norm_num)
  _ = 1 := by norm_num

theorem brightnessScale_mono (s t : Machine) (h : s.brightness ≤ t.brightness) :
    brightnessScale s ≤ brightnessScale t := by
  rw [brightnessScale, brightnessScale]
  have hb : (s.brightness : ℚ) ≤ (t.brightness : ℚ) := by exact_mod_cast h
  have hc : ((s.brightness : ℚ) / 255) ≤ ((t.brightness : ℚ) / 255) := by gcongr
  exact mul_le_mul hc hc (by positivity) (by positivity)

theorem brightnessScale_zero (s : Machine) (h : s.brightness = 0) :
    brightnessScale s = 0 := by
  rw [brightnessScale, h]
  norm_num

theorem brightnessScale_max (s : Machine) (h : s.brightness = 255) :
    brightnessScale s = 1 := by
  rw [brightnessScale, h]
  norm_num

theorem applyBrightness_zero (s : Machine) (h : s.brightness = 0) (c : RgbColor) :
    applyBrightness s c = black := by
  rw [applyBrightness, brightnessScale_zero s h, scaleColor_zero]

theorem applyBrightness_max (s : Machine) (h : s.brightness = 255) (c : RgbColor) :
    applyBrightness s c = c := by
  rw [applyBrightness, brightnessScale_max s h]
  exact scaleColor_of_one_le c 1 le_rfl

theorem blendChannel_one (l r : Nat) : blendChannel l r 1 = r := by
  rw [blendChannel, mul_one]
  have : ((l : ℚ) + ((r : ℚ) - (l : ℚ))) = (r : ℚ) := by ring
  rw [this, u8trunc_natCast]

theorem linearBlend_one (l r : RgbColor) : linearBlend l r 1 = r := by
  cases r
  simp [linearBlend, blendChannel_one]

theorem linearBlend_black (p : ℚ) : linearBlend black black p = black := by
  have h0 : u8trunc 0 = 0 := by
    have := u8trunc_natCast 0
    simpa using this
  simp [linearBlend, blendChannel, black, h0]

theorem calcHue_degenerate (t : ℚ) : calcHue 0 0 t = 0 := by
  rw [calcHue]
  split_ifs <;> ring

theorem hslToRgb_lum_zero (h : ℚ) : hslToRgb h 1 0 = black := by
  have h0 : u8trunc 0 = 0 := by
    have := u8trunc_natCast 0
    simpa using this
  rw [hslToRgb]
  norm_num [calcHue_degenerate, black, h0]

theorem getD_ofFn (n : Nat) (f : Fin n → RgbColor) (i : Nat) (hi : i < n) :
    (List.ofFn f).getD i black = f ⟨i, hi⟩ := by
  have hlen : i < (List.ofFn f).length := by
    rw [List.length_ofFn]
    exact hi
  rw [List.getD_eq_getElem?_getD, List.getElem?_eq_getElem hlen]
  simp only [Option.getD_some]
  rw [List.getElem_ofFn]

theorem strip_write_length (s : Machine) (c : RgbColor) :
    (writeColorToActivePixels s c).strip.length = MaxPixelCount := by
  simp only [writeColorToActivePixels, List.length_ofFn]

theorem strip_write_getD (s : Machine) (c : RgbColor) (i : Nat)
    (hi : i < MaxPixelCount) :
    (writeColorToActivePixels s c).strip.getD i black =
      if i < s.pixelCount then c else black := by
  have hstrip : (writeColorToActivePixels s c).strip =
      List.ofFn (fun j : Fin MaxPixelCount =>
        if (j : Nat) < s.pixelCount then c else black) := rfl
  rw [hstrip, getD_ofFn MaxPixelCount _ i hi]

theorem getD_set_self (l : List RgbColor) (i : Nat) (a : RgbColor)
    (h : i < l.length) : (l.set i a).getD i black = a := by
  rw [List.getD_eq_getElem?_getD, List.getElem?_eq_getElem (by simpa using h)]
  simp only [Option.getD_some]
  exact List.getElem_set_self (by simpa using h)

theorem getD_set_ne (l : List RgbColor) (i j : Nat) (a : RgbColor)
    (h : i ≠ j) : (l.set i a).getD j black = l.getD j black := by
  rw [List.getD_eq_getElem?_getD, List.getD_eq_getElem?_getD]
  rw [List.getElem?_set_ne h]

/-- What the snake segment loop leaves at index i: the loop writes the
falloff-scaled base color at the indices head+offset, head+offset+1, ...
for `fuel` steps, stopping at pixelCount, and leaves everything else. -/
theorem snakeLoop_getD (base : RgbColor) (head count : Nat) :
    ∀ (fuel offset : Nat) (strip : List RgbColor), count ≤ strip.length →
      ∀ i : Nat,
      (snakeLoop base head count offset fuel strip).getD i black =
        if head + offset ≤ i ∧ i < head + offset + fuel ∧ i < count then
          scaleColor base (1 - ((i - head : Nat) : ℚ) / (SnakeSegmentLength : ℚ))
        else strip.getD i black := by
  intro fuel
  induction fuel with
  | zero =>
    intro offset strip _ i
    rw [snakeLoop]
    have hno : ¬(head + offset ≤ i ∧ i < head + offset + 0 ∧ i < count) := by
      omega
    rw [if_neg hno]
  | succ fuel ih =>
    intro offset strip hlen i
    rw [snakeLoop]
    by_cases hbreak : count ≤ head + offset
    · rw [if_pos hbreak]
      have hno : ¬(head + offset ≤ i ∧ i < head + offset + (fuel + 1) ∧ i < count) := by
        omega
      rw [if_neg hno]
    · rw [if_neg hbreak]
      rw [ih (offset + 1) _ (by simpa using hlen)]
      by_cases hi : i = head + offset
      · subst hi
        have hc1 : ¬(head + (offset + 1) ≤ head + offset ∧
            head + offset < head + (offset + 1) + fuel ∧ head + offset < count) := by
          omega
        have hc2 : head + offset ≤ head + offset ∧
            head + offset < head + offset + (fuel + 1) ∧ head + offset < count := by
          omega
        rw [if_neg hc1, if_pos hc2]
        rw [getD_set_self _ _ _ (by omega)]
        have hoff : head + offset - head = offset := by omega
        rw [hoff]
      · rw [getD_set_ne _ _ _ _ (Ne.symm hi)]
        by_cases hC : head + offset ≤ i ∧ i < head + offset + (fuel + 1) ∧ i < count
        · have hC1 : head + (offset + 1) ≤ i ∧ i < head + (offset + 1) + fuel ∧ i < count := by
            omega
          rw [if_pos hC1, if_pos hC]
        · have hC1 : ¬(head + (offset + 1) ≤ i ∧ i < head + (offset + 1) + fuel ∧ i < count) := by
            omega
          rw [if_neg hC1, if_neg hC]

/-- BlendAnimUpdate in Fade mode writes the blended color to the active
pixels. -/
theorem BlendAnimUpdate_fade (s : Machine) (p : ℚ)
    (hfade : s.effect = EffectMode.Fade) :
    BlendAnimUpdate s p =
      writeColorToActivePixels s (linearBlend s.startingColor s.endingColor p) := by
  rw [BlendAnimUpdate, if_pos hfade]

/-- A non-dirty snake call whose step interval has elapsed performs
exactly one step. -/
theorem runSnakeEffect_eq (s : Machine) (now : Nat)
    (hdirty : s.snakeDirty = false)
    (hfire : ¬(s.lastSnakeStepMs ≠ 0 ∧ now - s.lastSnakeStepMs < SnakeStepDelayMs)) :
    runSnakeEffect s now =
      { s with
        lastSnakeStepMs := now
        snakeHead := (s.snakeHead + 1) % s.pixelCount
        strip := snakeLoop (applyBrightness s s.solidColor) s.snakeHead
          s.pixelCount 0 SnakeSegmentLength
          (writeColorToActivePixels s black).strip } := by
  have h1 : (if s.snakeDirty then resetSnakeEffect s else s) = s := by
    rw [hdirty]
    simp
  rw [runSnakeEffect]
  simp only [h1]
  rw [if_neg hfire]
  rfl

/-- Field-level description of one clean snake step: the head advances
modulo pixelCount and the strip holds the falloff segment over black. -/
theorem runSnakeEffect_step (s : Machine) (now : Nat)
    (hdirty : s.snakeDirty = false)
    (hfire : ¬(s.lastSnakeStepMs ≠ 0 ∧ now - s.lastSnakeStepMs < SnakeStepDelayMs))
    (hcount : s.pixelCount ≤ MaxPixelCount) :
    (runSnakeEffect s now).snakeHead = (s.snakeHead + 1) % s.pixelCount ∧
    (runSnakeEffect s now).pixelCount = s.pixelCount ∧
    (runSnakeEffect s now).snakeDirty = false ∧
    (runSnakeEffect s now).solidColor = s.solidColor ∧
    (runSnakeEffect s now).brightness = s.brightness ∧
    (runSnakeEffect s now).lastSnakeStepMs = now ∧
    ∀ i : Nat, i < MaxPixelCount →
      (runSnakeEffect s now).strip.getD i black =
        if s.snakeHead ≤ i ∧ i < s.snakeHead + SnakeSegmentLength ∧ i < s.pixelCount then
          scaleColor (applyBrightness s s.solidColor)
            (1 - ((i - s.snakeHead : Nat) : ℚ) / (SnakeSegmentLength : ℚ))
        else black := by
  rw [runSnakeEffect_eq s now hdirty hfire]
  refine ⟨rfl, rfl, hdirty, rfl, rfl, rfl, ?_⟩
  intro i hi
  rw [snakeLoop_getD (applyBrightness s s.solidColor) s.snakeHead s.pixelCount
    SnakeSegmentLength 0 _ (by rw [strip_write_length]; exact hcount) i]
  rw [strip_write_getD s black i hi]
  rw [ite_self]
  simp only [Nat.add_zero]

/-- Completing the blend animation in Fade mode writes the ending color
to the active pixels and deactivates the channel. -/
theorem UpdateAnimations_complete (s : Machine) (delta : Nat)
    (hact : s.animActive = true)
    (hdur : 0 < s.animDuration)
    (hrem : s.animRemaining ≤ delta)
    (hfade : s.effect = EffectMode.Fade) :
    UpdateAnimations s delta =
      { writeColorToActivePixels s s.endingColor with
        animActive := false, animRemaining := 0 } := by
  have hz : s.animRemaining - delta = 0 := Nat.sub_eq_zero_of_le hrem
  have hne : (s.animDuration : ℚ) ≠ 0 := Nat.cast_ne_zero.mpr (by omega)
  rw [UpdateAnimations, if_pos hact]
  simp only [hz, Nat.cast_zero, sub_zero, if_true]
  rw [div_self hne]
  rw [BlendAnimUpdate_fade s 1 hfade, linearBlend_one]

/-- When the animator channel is idle, a new fade cycle starts from the
color read back from pixel 0 and targets the freshly drawn HSL color. -/
theorem fade_restart_fields (s : Machine) (hue360 dur : Nat) (lum : ℚ)
    (h : s.animActive = false) :
    (FadeInFadeOutRinseRepeat s hue360 dur lum).startingColor =
        s.strip.getD 0 black ∧
    (FadeInFadeOutRinseRepeat s hue360 dur lum).endingColor =
        hslToRgb ((hue360 : ℚ) / 360) 1 lum ∧
    (FadeInFadeOutRinseRepeat s hue360 dur lum).animActive = true := by
  rw [FadeInFadeOutRinseRepeat]
  have h1 : (if s.animActive then { s with startingColor := s.endingColor }
      else { s with startingColor := s.strip.getD 0 black }) =
      { s with startingColor := s.strip.getD 0 black } := by
    rw [h]
    simp
  simp only [h1]
  simp

/-- BlendAnimUpdate only ever writes the strip. -/
theorem BlendAnimUpdate_frame (t : Machine) (p : ℚ) :
    (BlendAnimUpdate t p).startingColor = t.startingColor ∧
    (BlendAnimUpdate t p).endingColor = t.endingColor ∧
    (BlendAnimUpdate t p).effect = t.effect := by
  rw [BlendAnimUpdate]
  by_cases h : t.effect = EffectMode.Fade
  · rw [if_pos h]
    exact ⟨rfl, rfl, rfl⟩
  · rw [if_neg h]
    exact ⟨rfl, rfl, rfl⟩

/-- UpdateAnimations only ever writes the strip and the animator
channel fields. -/
theorem UpdateAnimations_frame (t : Machine) (delta : Nat) :
    (UpdateAnimations t delta).startingColor = t.startingColor ∧
    (UpdateAnimations t delta).endingColor = t.endingColor ∧
    (UpdateAnimations t delta).effect = t.effect := by
  rw [UpdateAnimations]
  by_cases h : t.animActive = true
  · rw [if_pos h]
    simp only []
    by_cases hz : t.animRemaining - delta = 0
    · rw [if_pos hz]
      exact (BlendAnimUpdate_frame t _)
    · rw [if_neg hz]
      exact (BlendAnimUpdate_frame t _)
  · rw [if_neg h]
    exact ⟨rfl, rfl, rfl⟩

/-- The Fade branch of the dispatch loop while a blend is in flight. -/
theorem ensure_fade_active (s : Machine) (now delta hue360 dur : Nat)
    (hfade : s.effect = EffectMode.Fade) (hact : s.animActive = true) :
    ensureEffectIsRunning s now delta hue360 dur =
      UpdateAnimations { s with offDirty := true, solidDirty := true } delta := by
  unfold ensureEffectIsRunning
  rw [hfade]
  simp only []
  rw [if_pos hact]

/-- The Fade branch of the dispatch loop while the animator is idle:
a new cycle is started, then advanced. -/
theorem ensure_fade_inactive (s : Machine) (now delta hue360 dur : Nat)
    (hfade : s.effect = EffectMode.Fade) (hact : s.animActive = false) :
    ensureEffectIsRunning s now delta hue360 dur =
      UpdateAnimations
        (FadeInFadeOutRinseRepeat { s with offDirty := true, solidDirty := true }
          hue360 dur (brightnessToLuminance s)) delta := by
  unfold ensureEffectIsRunning
  rw [hfade]
  simp only []
  rw [if_neg (by rw [hact]; simp)]
  rfl

/-- A dirty snake call first resets, then proceeds on the reset state. -/
theorem runSnakeEffect_dirty (s : Machine) (now : Nat)
    (hdirty : s.snakeDirty = true) :
    runSnakeEffect s now = runSnakeEffect (resetSnakeEffect s) now := by
  rw [runSnakeEffect, runSnakeEffect]
  have h1 : (if s.snakeDirty then resetSnakeEffect s else s) = resetSnakeEffect s := by
    rw [hdirty]
    simp
  have h2 : (if (resetSnakeEffect s).snakeDirty then resetSnakeEffect (resetSnakeEffect s)
      else resetSnakeEffect s) = resetSnakeEffect s := by
    rw [show (resetSnakeEffect s).snakeDirty = false from rfl]
    simp
  simp only [h1, h2]

/-- Evaluation of applyModeFromString when the token parses to a mode. -/
theorem applyModeFromString_eq (s : Machine) (v : String) (m : EffectMode)
    (hm : (if strToLower v = "solid" then some EffectMode.Solid
      else if strToLower v = "off" then some EffectMode.Off
      else if strToLower v = "fade" then some EffectMode.Fade
      else if strToLower v = "snake" then some EffectMode.Snake
      else none) = some m) :
    applyModeFromString s v =
      (if s.effect = m then (false, s)
       else (true, { s with
                     effect := m, animActive := false, fadeToColor := true,
                     solidDirty := true, offDirty := true, snakeDirty := true })) := by
  rw [applyModeFromString]
  simp only [hm]

/-- Evaluation of applyModeFromString when the token parses to nothing. -/
theorem applyModeFromString_unrecognized (s : Machine) (v : String)
    (hm : (if strToLower v = "solid" then some EffectMode.Solid
      else if strToLower v = "off" then some EffectMode.Off
      else if strToLower v = "fade" then some EffectMode.Fade
      else if strToLower v = "snake" then some EffectMode.Snake
      else none) = (none : Option EffectMode)) :
    applyModeFromString s v = (false, s) := by
  rw [applyModeFromString]
  simp only [hm]

/-- setSolidColor touches only solidColor, solidDirty and snakeDirty. -/
theorem setSolidColor_frame (s : Machine) (r g b : Nat) :
    (setSolidColor s r g b).2.effect = s.effect ∧
    (setSolidColor s r g b).2.brightness = s.brightness ∧
    (setSolidColor s r g b).2.pixelCount = s.pixelCount ∧
    (setSolidColor s r g b).2.offDirty = s.offDirty ∧
    (setSolidColor s r g b).2.fadeToColor = s.fadeToColor ∧
    (setSolidColor s r g b).2.snakeHead = s.snakeHead ∧
    (setSolidColor s r g b).2.lastSnakeStepMs = s.lastSnakeStepMs ∧
    (setSolidColor s r g b).2.startingColor = s.startingColor ∧
    (setSolidColor s r g b).2.endingColor = s.endingColor ∧
    (setSolidColor s r g b).2.animActive = s.animActive ∧
    (setSolidColor s r g b).2.animDuration = s.animDuration ∧
    (setSolidColor s r g b).2.animRemaining = s.animRemaining ∧
    (setSolidColor s r g b).2.strip = s.strip := by
  rw [setSolidColor]
  by_cases h : s.solidColor.R = r ∧ s.solidColor.G = g ∧ s.solidColor.B = b
  · rw [if_pos h]
    exact ⟨rfl, rfl, rfl, rfl, rfl, rfl, rfl, rfl, rfl, rfl, rfl, rfl, rfl⟩
  · rw [if_neg h]
    exact ⟨rfl, rfl, rfl, rfl, rfl, rfl, rfl, rfl, rfl, rfl, rfl, rfl, rfl⟩

/-- C1 as stated is false on the code: here is an actual color change
(the call reports changed = true) after which offDirty is still false —
setSolidColor sets only solidDirty and snakeDirty. -/
theorem C1_counterexample :
    (setSolidColor { initialState with offDirty := false } 1 2 3).1 = true ∧
    (setSolidColor { initialState with offDirty := false } 1 2 3).2.offDirty = false := by
  exact ⟨by decide, by decide⟩

/-- C1 amended: on an actual change, setBrightness and setPixelCount set
solidDirty, offDirty and snakeDirty; setSolidColor sets solidDirty and
snakeDirty and leaves offDirty unchanged (Off-mode rendering does not
depend on the color). -/
theorem C1_dirty_flags (s : Machine) (r g b v c : Nat)
    (hcol : (setSolidColor s r g b).1 = true)
    (hbr : (setBrightness s v).1 = true)
    (hpc : (setPixelCount s c).1 = true) :
    ((setSolidColor s r g b).2.solidDirty = true ∧
     (setSolidColor s r g b).2.snakeDirty = true ∧
     (setSolidColor s r g b).2.offDirty = s.offDirty) ∧
    ((setBrightness s v).2.solidDirty = true ∧
     (setBrightness s v).2.offDirty = true ∧
     (setBrightness s v).2.snakeDirty = true) ∧
    ((setPixelCount s c).2.solidDirty = true ∧
     (setPixelCount s c).2.offDirty = true ∧
     (setPixelCount s c).2.snakeDirty = true) := by
  refine ⟨?_, ?_, ?_⟩
  · rw [setSolidColor] at hcol ⊢
    by_cases h : s.solidColor.R = r ∧ s.solidColor.G = g ∧ s.solidColor.B = b
    · rw [if_pos h] at hcol
      exact absurd hcol (by simp)
    · rw [if_neg h]
      exact ⟨rfl, rfl, rfl⟩
  · rw [setBrightness] at hbr ⊢
    by_cases h : s.brightness = constrainN v 0 255
    · rw [if_pos h] at hbr
      exact absurd hbr (by simp)
    · rw [if_neg h]
      exact ⟨rfl, rfl, rfl⟩
  · rw [setPixelCount] at hpc ⊢
    by_cases h : s.pixelCount = constrainN c 1 MaxPixelCount
    · rw [if_pos h] at hpc
      exact absurd hpc (by simp)
    · rw [if_neg h]
      exact ⟨rfl, rfl, rfl⟩

/-- Witness for C1_dirty_flags at a concrete input. -/
theorem C1_dirty_flags_witness :
    ((setSolidColor initialState 1 2 3).1 = true ∧
     (setBrightness initialState 5).1 = true ∧
     (setPixelCount initialState 3).1 = true) ∧
    (((setSolidColor initialState 1 2 3).2.solidDirty = true ∧
      (setSolidColor initialState 1 2 3).2.snakeDirty = true ∧
      (setSolidColor initialState 1 2 3).2.offDirty = initialState.offDirty) ∧
     ((setBrightness initialState 5).2.solidDirty = true ∧
      (setBrightness initialState 5).2.offDirty = true ∧
      (setBrightness initialState 5).2.snakeDirty = true) ∧
     ((setPixelCount initialState 3).2.solidDirty = true ∧
      (setPixelCount initialState 3).2.offDirty = true ∧
      (setPixelCount initialState 3).2.snakeDirty = true)) :=
  ⟨⟨by decide, by decide, by decide⟩,
   C1_dirty_flags initialState 1 2 3 5 3 (by decide) (by decide) (by decide)⟩

/-- C6: applyBrightness never increases a channel, the scale (b/255)^2 is
monotone in the brightness, brightness 0 gives pure black, and
brightness 255 returns the input color unchanged. -/
theorem C6_brightness_curve (s t : Machine) (c : RgbColor)
    (hmono : s.brightness ≤ t.brightness) :
    ((applyBrightness s c).R ≤ c.R ∧ (applyBrightness s c).G ≤ c.G ∧
      (applyBrightness s c).B ≤ c.B) ∧
    brightnessScale s ≤ brightnessScale t ∧
    (s.brightness = 0 → applyBrightness s c = black) ∧
    (s.brightness = 255 → applyBrightness s c = c) :=
  ⟨scaleColor_channels_le c (brightnessScale s),
   brightnessScale_mono s t hmono,
   fun h => applyBrightness_zero s h c,
   fun h => applyBrightness_max s h c⟩

/-- Witness for C6_brightness_curve at a concrete input. -/
theorem C6_brightness_curve_witness :
    ({ initialState with brightness := 0 } : Machine).brightness ≤
        initialState.brightness ∧
    (((applyBrightness { initialState with brightness := 0 } ⟨10, 20, 30⟩).R ≤ 10 ∧
      (applyBrightness { initialState with brightness := 0 } ⟨10, 20, 30⟩).G ≤ 20 ∧
      (applyBrightness { initialState with brightness := 0 } ⟨10, 20, 30⟩).B ≤ 30) ∧
     brightnessScale { initialState with brightness := 0 } ≤ brightnessScale initialState ∧
     (({ initialState with brightness := 0 } : Machine).brightness = 0 →
       applyBrightness { initialState with brightness := 0 } ⟨10, 20, 30⟩ = black) ∧
     (({ initialState with brightness := 0 } : Machine).brightness = 255 →
       applyBrightness { initialState with brightness := 0 } ⟨10, 20, 30⟩ = ⟨10, 20, 30⟩)) :=
  ⟨by decide, C6_brightness_curve { initialState with brightness := 0 } initialState
    ⟨10, 20, 30⟩ (by decide)⟩

/-- C7: a token that is not case-insensitively fade, solid, snake or off
makes applyModeFromString report no change and leave the state exactly
as it was. -/
theorem C7_invalid_mode_noop (s : Machine) (v : String)
    (h1 : strToLower v ≠ "fade") (h2 : strToLower v ≠ "solid")
    (h3 : strToLower v ≠ "snake") (h4 : strToLower v ≠ "off") :
    applyModeFromString s v = (false, s) := by
  apply applyModeFromString_unrecognized
  rw [if_neg h2, if_neg h4, if_neg h1, if_neg h3]

/-- Witness for C7_invalid_mode_noop at the token purple. -/
theorem C7_invalid_mode_noop_witness :
    (strToLower "purple" ≠ "fade" ∧ strToLower "purple" ≠ "solid" ∧
     strToLower "purple" ≠ "snake" ∧ strToLower "purple" ≠ "off") ∧
    applyModeFromString initialState "purple" = (false, initialState) :=
  ⟨⟨by decide, by decide, by decide, by decide⟩,
   C7_invalid_mode_noop initialState "purple" (by decide) (by decide)
     (by decide) (by decide)⟩

/-- C8: each mutator called with its current value returns false and
leaves the state untouched. -/
theorem C8_mutators_idempotent (s : Machine)
    (hb : s.brightness ≤ 255)
    (hc1 : 1 ≤ s.pixelCount) (hc2 : s.pixelCount ≤ MaxPixelCount) :
    applyModeFromString s (modeToString s.effect) = (false, s) ∧
    setSolidColor s s.solidColor.R s.solidColor.G s.solidColor.B = (false, s) ∧
    setBrightness s s.brightness = (false, s) ∧
    setPixelCount s s.pixelCount = (false, s) := by
  refine ⟨?_, ?_, ?_, ?_⟩
  · cases he : s.effect
    · rw [show modeToString EffectMode.Fade = "fade" from rfl,
        applyModeFromString_eq s "fade" EffectMode.Fade (by decide), if_pos he]
    · rw [show modeToString EffectMode.Solid = "solid" from rfl,
        applyModeFromString_eq s "solid" EffectMode.Solid (by decide), if_pos he]
    · rw [show modeToString EffectMode.Snake = "snake" from rfl,
        applyModeFromString_eq s "snake" EffectMode.Snake (by decide), if_pos he]
    · rw [show modeToString EffectMode.Off = "off" from rfl,
        applyModeFromString_eq s "off" EffectMode.Off (by decide), if_pos he]
  · rw [setSolidColor, if_pos ⟨rfl, rfl, rfl⟩]
  · rw [setBrightness]
    have hcon : constrainN s.brightness 0 255 = s.brightness := by
      rw [constrainN]
      omega
    simp only [hcon, if_true]
  · rw [setPixelCount]
    have hcon : constrainN s.pixelCount 1 MaxPixelCount = s.pixelCount := by
      rw [constrainN]
      omega
    simp only [hcon, if_true]

/-- Witness for C8_mutators_idempotent at the initial state. -/
theorem C8_mutators_idempotent_witness :
    (initialState.brightness ≤ 255 ∧ 1 ≤ initialState.pixelCount ∧
      initialState.pixelCount ≤ MaxPixelCount) ∧
    (applyModeFromString initialState (modeToString initialState.effect) =
        (false, initialState) ∧
     setSolidColor initialState initialState.solidColor.R
        initialState.solidColor.G initialState.solidColor.B = (false, initialState) ∧
     setBrightness initialState initialState.brightness = (false, initialState) ∧
     setPixelCount initialState initialState.pixelCount = (false, initialState)) :=
  ⟨⟨by decide, by decide, by decide⟩,
   C8_mutators_idempotent initialState (by decide) (by decide) (by decide)⟩

/-- C10: a control request that supplies only r, g and b leaves the
effect mode, brightness, pixel count and all animation state unchanged;
only the solid color and dirty flags can change. -/
theorem C10_color_only_request (s : Machine) (r g b : Int) :
    (handleControlRequest s
      { mode := none, brightness := none, count := none,
        r := some r, g := some g, b := some b }).2.effect = s.effect ∧
    (handleControlRequest s
      { mode := none, brightness := none, count := none,
        r := some r, g := some g, b := some b }).2.brightness = s.brightness ∧
    (handleControlRequest s
      { mode := none, brightness := none, count := none,
        r := some r, g := some g, b := some b }).2.pixelCount = s.pixelCount ∧
    (handleControlRequest s
      { mode := none, brightness := none, count := none,
        r := some r, g := some g, b := some b }).2.snakeHead = s.snakeHead ∧
    (handleControlRequest s
      { mode := none, brightness := none, count := none,
        r := some r, g := some g, b := some b }).2.lastSnakeStepMs = s.lastSnakeStepMs ∧
    (handleControlRequest s
      { mode := none, brightness := none, count := none,
        r := some r, g := some g, b := some b }).2.startingColor = s.startingColor ∧
    (handleControlRequest s
      { mode := none, brightness := none, count := none,
        r := some r, g := some g, b := some b }).2.endingColor = s.endingColor ∧
    (handleControlRequest s
      { mode := none, brightness := none, count := none,
        r := some r, g := some g, b := some b }).2.animActive = s.animActive ∧
    (handleControlRequest s
      { mode := none, brightness := none, count := none,
        r := some r, g := some g, b := some b }).2.animDuration = s.animDuration ∧
    (handleControlRequest s
      { mode := none, brightness := none, count := none,
        r := some r, g := some g, b := some b }).2.animRemaining = s.animRemaining ∧
    (handleControlRequest s
      { mode := none, brightness := none, count := none,
        r := some r, g := some g, b := some b }).2.fadeToColor = s.fadeToColor ∧
    (handleControlRequest s
      { mode := none, brightness := none, count := none,
        r := some r, g := some g, b := some b }).2.strip = s.strip := by
  have hreq : (handleControlRequest s
      { mode := none, brightness := none, count := none,
        r := some r, g := some g, b := some b }).2 =
      (setSolidColor s (constrainI r 0 255).toNat (constrainI g 0 255).toNat
        (constrainI b 0 255).toNat).2 := rfl
  rw [hreq]
  obtain ⟨f1, f2, f3, _, f5, f6, f7, f8, f9, f10, f11, f12, f13⟩ :=
    setSolidColor_frame s (constrainI r 0 255).toNat (constrainI g 0 255).toNat
      (constrainI b 0 255).toNat
  exact ⟨f1, f2, f3, f6, f7, f8, f9, f10, f11, f12, f5, f13⟩

/-- brightnessScale depends only on the brightness field. -/
theorem brightnessScale_congr (s t : Machine) (h : s.brightness = t.brightness) :
    brightnessScale s = brightnessScale t := by
  rw [brightnessScale, brightnessScale, h]

/-- applyBrightness depends only on the brightness field. -/
theorem applyBrightness_congr (s t : Machine) (c : RgbColor)
    (h : s.brightness = t.brightness) :
    applyBrightness s c = applyBrightness t c := by
  rw [applyBrightness, applyBrightness, brightnessScale_congr s t h]

/-- Snake state at head 10 with full brightness and a red base color. -/
def c4State : Machine :=
  { initialState with
    snakeDirty := false
    snakeHead := 10
    brightness := 255
    solidColor := ⟨255, 0, 0⟩ }

/-- C4 as stated is false: with pixelCount 12 and head 10 the lit run is
truncated at the end of the strip, so the pixel at offset 2 (index 12)
stays black even though the claimed falloff color there is (153,0,0). -/
theorem C4_counterexample :
    (runSnakeEffect c4State 0).strip.getD 12 black = black ∧
    scaleColor (applyBrightness c4State c4State.solidColor)
      (1 - ((2 : Nat) : ℚ) / (SnakeSegmentLength : ℚ)) = ⟨153, 0, 0⟩ :=
  ⟨by with_unfolding_all decide, by with_unfolding_all decide⟩

/-- C4 amended: a firing snake tick clears the active pixels, lights the
run of pixels head+k for k < SnakeSegmentLength that satisfy
head+k < pixelCount (the run truncates at the end of the strip, it does
not wrap), each carrying the brightness-scaled base color further scaled
by 1 - k/SnakeSegmentLength, and advances head to (head+1) mod
pixelCount. -/
theorem C4_snake_step (s : Machine) (now : Nat)
    (hdirty : s.snakeDirty = false)
    (hfire : ¬(s.lastSnakeStepMs ≠ 0 ∧ now - s.lastSnakeStepMs < SnakeStepDelayMs))
    (hhead : s.snakeHead < s.pixelCount)
    (hcount : s.pixelCount ≤ MaxPixelCount) :
    (∀ k : Nat, k < SnakeSegmentLength → s.snakeHead + k < s.pixelCount →
      (runSnakeEffect s now).strip.getD (s.snakeHead + k) black =
        scaleColor (applyBrightness s s.solidColor)
          (1 - (k : ℚ) / (SnakeSegmentLength : ℚ))) ∧
    (∀ i : Nat, i < MaxPixelCount →
      (i < s.snakeHead ∨ s.snakeHead + SnakeSegmentLength ≤ i ∨ s.pixelCount ≤ i) →
      (runSnakeEffect s now).strip.getD i black = black) ∧
    (runSnakeEffect s now).snakeHead = (s.snakeHead + 1) % s.pixelCount := by
  obtain ⟨h1, _, _, _, _, _, h7⟩ := runSnakeEffect_step s now hdirty hfire hcount
  refine ⟨?_, ?_, h1⟩
  · intro k hk hkc
    rw [h7 (s.snakeHead + k) (by omega)]
    have hcnd : s.snakeHead ≤ s.snakeHead + k ∧
        s.snakeHead + k < s.snakeHead + SnakeSegmentLength ∧
        s.snakeHead + k < s.pixelCount := by omega
    rw [if_pos hcnd]
    have hsub : s.snakeHead + k - s.snakeHead = k := by omega
    rw [hsub]
  · intro i hi hout
    rw [h7 i hi]
    have hcnd : ¬(s.snakeHead ≤ i ∧ i < s.snakeHead + SnakeSegmentLength ∧
        i < s.pixelCount) := by omega
    rw [if_neg hcnd]

/-- Witness for C4_snake_step at head 10, count 12, now 0. -/
theorem C4_snake_step_witness :
    (c4State.snakeDirty = false ∧
     ¬(c4State.lastSnakeStepMs ≠ 0 ∧ 0 - c4State.lastSnakeStepMs < SnakeStepDelayMs) ∧
     c4State.snakeHead < c4State.pixelCount ∧
     c4State.pixelCount ≤ MaxPixelCount) ∧
    ((∀ k : Nat, k < SnakeSegmentLength → c4State.snakeHead + k < c4State.pixelCount →
       (runSnakeEffect c4State 0).strip.getD (c4State.snakeHead + k) black =
         scaleColor (applyBrightness c4State c4State.solidColor)
           (1 - (k : ℚ) / (SnakeSegmentLength : ℚ))) ∧
     (∀ i : Nat, i < MaxPixelCount →
       (i < c4State.snakeHead ∨ c4State.snakeHead + SnakeSegmentLength ≤ i ∨
         c4State.pixelCount ≤ i) →
       (runSnakeEffect c4State 0).strip.getD i black = black) ∧
     (runSnakeEffect c4State 0).snakeHead = (c4State.snakeHead + 1) % c4State.pixelCount) :=
  ⟨⟨by decide, by decide, by decide, by decide⟩,
   C4_snake_step c4State 0 (by decide) (by decide) (by decide) (by decide)⟩

/-- C5: after each render operation every pixel index in
[pixelCount, MaxPixelCount) is exactly black and every index in
[0, pixelCount) carries that render operation's computed color. -/
theorem C5_active_range (s : Machine) (now : Nat) (i : Nat) (p : ℚ)
    (hc1 : 1 ≤ s.pixelCount) (hc2 : s.pixelCount ≤ MaxPixelCount)
    (hi : i < MaxPixelCount) :
    ((s.pixelCount ≤ i → (applySolidColor s).strip.getD i black = black) ∧
     (i < s.pixelCount → (applySolidColor s).strip.getD i black =
        applyBrightness s s.solidColor)) ∧
    ((s.pixelCount ≤ i → (turnStripOff s).strip.getD i black = black) ∧
     (i < s.pixelCount → (turnStripOff s).strip.getD i black = black)) ∧
    ((s.pixelCount ≤ i → (resetSnakeEffect s).strip.getD i black = black) ∧
     (i < s.pixelCount → (resetSnakeEffect s).strip.getD i black = black)) ∧
    (s.snakeDirty = false →
     ¬(s.lastSnakeStepMs ≠ 0 ∧ now - s.lastSnakeStepMs < SnakeStepDelayMs) →
      ((s.pixelCount ≤ i → (runSnakeEffect s now).strip.getD i black = black) ∧
       (i < s.pixelCount → (runSnakeEffect s now).strip.getD i black =
          (if s.snakeHead ≤ i ∧ i < s.snakeHead + SnakeSegmentLength then
            scaleColor (applyBrightness s s.solidColor)
              (1 - ((i - s.snakeHead : Nat) : ℚ) / (SnakeSegmentLength : ℚ))
           else black)))) ∧
    (s.effect = EffectMode.Fade →
      ((s.pixelCount ≤ i → (BlendAnimUpdate s p).strip.getD i black = black) ∧
       (i < s.pixelCount → (BlendAnimUpdate s p).strip.getD i black =
          linearBlend s.startingColor s.endingColor p))) := by
  have hA : (applySolidColor s).strip.getD i black =
      if i < s.pixelCount then applyBrightness s s.solidColor else black := by
    rw [show (applySolidColor s).strip =
      (writeColorToActivePixels s (applyBrightness s s.solidColor)).strip from rfl]
    exact strip_write_getD s _ i hi
  have hO : (turnStripOff s).strip.getD i black = black := by
    rw [show (turnStripOff s).strip = (writeColorToActivePixels s black).strip from rfl]
    rw [strip_write_getD s black i hi, ite_self]
  have hR : (resetSnakeEffect s).strip.getD i black = black := by
    rw [show (resetSnakeEffect s).strip =
      (writeColorToActivePixels
        { s with snakeHead := 0, lastSnakeStepMs := 0, snakeDirty := false } black).strip
      from rfl]
    rw [strip_write_getD _ black i hi, ite_self]
  refine ⟨⟨fun h => ?_, fun h => ?_⟩, ⟨fun _ => hO, fun _ => hO⟩,
    ⟨fun _ => hR, fun _ => hR⟩, fun hdirty hfire => ?_, fun hfade => ?_⟩
  · rw [hA, if_neg (by omega)]
  · rw [hA, if_pos h]
  · obtain ⟨_, _, _, _, _, _, h7⟩ := runSnakeEffect_step s now hdirty hfire hc2
    constructor
    · intro h
      rw [h7 i hi, if_neg (by omega)]
    · intro h
      rw [h7 i hi]
      by_cases hcnd : s.snakeHead ≤ i ∧ i < s.snakeHead + SnakeSegmentLength
      · rw [if_pos (by omega : s.snakeHead ≤ i ∧ i < s.snakeHead + SnakeSegmentLength ∧
          i < s.pixelCount), if_pos hcnd]
      · rw [if_neg (by omega : ¬(s.snakeHead ≤ i ∧ i < s.snakeHead + SnakeSegmentLength ∧
          i < s.pixelCount)), if_neg hcnd]
  · rw [BlendAnimUpdate_fade s p hfade]
    rw [show (writeColorToActivePixels s (linearBlend s.startingColor s.endingColor p)).strip.getD i black =
      if i < s.pixelCount then linearBlend s.startingColor s.endingColor p else black
      from strip_write_getD s _ i hi]
    constructor
    · intro h
      rw [if_neg (by omega)]
    · intro h
      rw [if_pos h]

/-- Witness for C5_active_range at the initial state, index 12. -/
theorem C5_active_range_witness :
    (1 ≤ initialState.pixelCount ∧ initialState.pixelCount ≤ MaxPixelCount ∧
      (12 : Nat) < MaxPixelCount) ∧
    (((initialState.pixelCount ≤ 12 →
        (applySolidColor initialState).strip.getD 12 black = black) ∧
      (12 < initialState.pixelCount →
        (applySolidColor initialState).strip.getD 12 black =
          applyBrightness initialState initialState.solidColor)) ∧
     ((initialState.pixelCount ≤ 12 →
        (turnStripOff initialState).strip.getD 12 black = black) ∧
      (12 < initialState.pixelCount →
        (turnStripOff initialState).strip.getD 12 black = black)) ∧
     ((initialState.pixelCount ≤ 12 →
        (resetSnakeEffect initialState).strip.getD 12 black = black) ∧
      (12 < initialState.pixelCount →
        (resetSnakeEffect initialState).strip.getD 12 black = black)) ∧
     (initialState.snakeDirty = false →
      ¬(initialState.lastSnakeStepMs ≠ 0 ∧
          0 - initialState.lastSnakeStepMs < SnakeStepDelayMs) →
       ((initialState.pixelCount ≤ 12 →
          (runSnakeEffect initialState 0).strip.getD 12 black = black) ∧
        (12 < initialState.pixelCount →
          (runSnakeEffect initialState 0).strip.getD 12 black =
            (if initialState.snakeHead ≤ 12 ∧
                12 < initialState.snakeHead + SnakeSegmentLength then
              scaleColor (applyBrightness initialState initialState.solidColor)
                (1 - ((12 - initialState.snakeHead : Nat) : ℚ) /
                  (SnakeSegmentLength : ℚ))
             else black)))) ∧
     (initialState.effect = EffectMode.Fade →
       ((initialState.pixelCount ≤ 12 →
          (BlendAnimUpdate initialState 1).strip.getD 12 black = black) ∧
        (12 < initialState.pixelCount →
          (BlendAnimUpdate initialState 1).strip.getD 12 black =
            linearBlend initialState.startingColor initialState.endingColor 1)))) :=
  ⟨⟨by decide, by decide, by decide⟩,
   C5_active_range initialState 0 12 1 (by decide) (by decide) (by decide)⟩

/-- One snake tick preserves the configuration and advances the head. -/
theorem snakeTick_invariant (s : Machine) (hdirty : s.snakeDirty = false)
    (hcount : s.pixelCount ≤ MaxPixelCount) :
    (snakeTick s).snakeHead = (s.snakeHead + 1) % s.pixelCount ∧
    (snakeTick s).pixelCount = s.pixelCount ∧
    (snakeTick s).snakeDirty = false ∧
    (snakeTick s).solidColor = s.solidColor ∧
    (snakeTick s).brightness = s.brightness ∧
    ∀ i : Nat, i < MaxPixelCount →
      (snakeTick s).strip.getD i black =
        if s.snakeHead ≤ i ∧ i < s.snakeHead + SnakeSegmentLength ∧ i < s.pixelCount then
          scaleColor (applyBrightness s s.solidColor)
            (1 - ((i - s.snakeHead : Nat) : ℚ) / (SnakeSegmentLength : ℚ))
        else black := by
  have hfire : ¬(s.lastSnakeStepMs ≠ 0 ∧
      (s.lastSnakeStepMs + SnakeStepDelayMs) - s.lastSnakeStepMs < SnakeStepDelayMs) := by
    omega
  obtain ⟨h1, h2, h3, h4, h5, _, h7⟩ := runSnakeEffect_step s
    (s.lastSnakeStepMs + SnakeStepDelayMs) hdirty hfire hcount
  exact ⟨h1, h2, h3, h4, h5, h7⟩

/-- Iterating snake ticks from head 0: the head after n ticks is
n mod pixelCount, and the configuration is preserved. -/
theorem snakeTick_iterate (s : Machine) (hdirty : s.snakeDirty = false)
    (hhead : s.snakeHead = 0) (hcount : s.pixelCount ≤ MaxPixelCount) :
    ∀ n : Nat,
      (snakeTick^[n] s).snakeHead = n % s.pixelCount ∧
      (snakeTick^[n] s).pixelCount = s.pixelCount ∧
      (snakeTick^[n] s).snakeDirty = false ∧
      (snakeTick^[n] s).solidColor = s.solidColor ∧
      (snakeTick^[n] s).brightness = s.brightness := by
  intro n
  induction n with
  | zero =>
    refine ⟨?_, rfl, hdirty, rfl, rfl⟩
    simpa using hhead
  | succ n ih =>
    obtain ⟨ih1, ih2, ih3, ih4, ih5⟩ := ih
    rw [Function.iterate_succ_apply']
    obtain ⟨t1, t2, t3, t4, t5, _⟩ :=
      snakeTick_invariant (snakeTick^[n] s) ih3 (by rw [ih2]; exact hcount)
    refine ⟨?_, ?_, t3, ?_, ?_⟩
    · rw [t1, ih1, ih2, Nat.mod_add_mod]
    · rw [t2, ih2]
    · rw [t4, ih4]
    · rw [t5, ih5]

/-- C9: from head 0, after exactly pixelCount ticks the head is back at
0; with pixelCount 1 the head is 0 after every tick and each tick lights
exactly pixel 0 with the brightness-scaled base color. -/
theorem C9_snake_wrap (s : Machine) (hdirty : s.snakeDirty = false)
    (hhead : s.snakeHead = 0)
    (hc1 : 1 ≤ s.pixelCount) (hc2 : s.pixelCount ≤ MaxPixelCount) :
    (snakeTick^[s.pixelCount] s).snakeHead = 0 ∧
    (s.pixelCount = 1 →
      ∀ n : Nat, (snakeTick^[n] s).snakeHead = 0 ∧
        ((snakeTick^[n + 1] s).strip.getD 0 black =
            applyBrightness s s.solidColor ∧
         ∀ i : Nat, 0 < i → i < MaxPixelCount →
           (snakeTick^[n + 1] s).strip.getD i black = black)) := by
  have hit := snakeTick_iterate s hdirty hhead hc2
  constructor
  · rw [(hit s.pixelCount).1, Nat.mod_self]
  · intro h1 n
    obtain ⟨i1, i2, i3, i4, i5⟩ := hit n
    have hth : (snakeTick^[n] s).snakeHead = 0 := by rw [i1, h1, Nat.mod_one]
    have hc1' : (snakeTick^[n] s).pixelCount = 1 := by rw [i2, h1]
    refine ⟨hth, ?_⟩
    rw [Function.iterate_succ_apply']
    obtain ⟨_, _, _, _, _, t6⟩ :=
      snakeTick_invariant (snakeTick^[n] s) i3 (by rw [i2]; exact hc2)
    constructor
    · rw [t6 0 (by rw [MaxPixelCount]; omega)]
      have hcnd : (snakeTick^[n] s).snakeHead ≤ 0 ∧
          0 < (snakeTick^[n] s).snakeHead + SnakeSegmentLength ∧
          0 < (snakeTick^[n] s).pixelCount := by
        rw [hth, hc1', SnakeSegmentLength]
        omega
      rw [if_pos hcnd, hth]
      simp only [Nat.sub_self, Nat.cast_zero, zero_div, sub_zero]
      rw [scaleColor_of_one_le _ 1 le_rfl]
      rw [i4, applyBrightness_congr _ s _ i5]
    · intro i hip hi
      rw [t6 i hi]
      have hcnd : ¬((snakeTick^[n] s).snakeHead ≤ i ∧
          i < (snakeTick^[n] s).snakeHead + SnakeSegmentLength ∧
          i < (snakeTick^[n] s).pixelCount) := by
        rw [hc1']
        omega
      rw [if_neg hcnd]

/-- Snake state with a single active pixel. -/
def c9State : Machine :=
  { initialState with snakeDirty := false, pixelCount := 1 }

/-- Witness for C9_snake_wrap with pixelCount 1. -/
theorem C9_snake_wrap_witness :
    (c9State.snakeDirty = false ∧ c9State.snakeHead = 0 ∧
      1 ≤ c9State.pixelCount ∧ c9State.pixelCount ≤ MaxPixelCount) ∧
    ((snakeTick^[c9State.pixelCount] c9State).snakeHead = 0 ∧
     (c9State.pixelCount = 1 →
       ∀ n : Nat, (snakeTick^[n] c9State).snakeHead = 0 ∧
         ((snakeTick^[n + 1] c9State).strip.getD 0 black =
             applyBrightness c9State c9State.solidColor ∧
          ∀ i : Nat, 0 < i → i < MaxPixelCount →
            (snakeTick^[n + 1] c9State).strip.getD i black = black))) :=
  ⟨⟨by decide, by decide, by decide, by decide⟩,
   C9_snake_wrap c9State (by decide) (by decide) (by decide) (by decide)⟩

/-- When a blend is in flight, a new cycle would start from the previous
target; in either branch the ending color becomes the drawn target. -/
theorem fade_inflight_fields (s : Machine) (hue360 dur : Nat) (lum : ℚ)
    (h : s.animActive = true) :
    (FadeInFadeOutRinseRepeat s hue360 dur lum).startingColor = s.endingColor ∧
    (FadeInFadeOutRinseRepeat s hue360 dur lum).endingColor =
        hslToRgb ((hue360 : ℚ) / 360) 1 lum := by
  rw [FadeInFadeOutRinseRepeat]
  have h1 : (if s.animActive then { s with startingColor := s.endingColor }
      else { s with startingColor := s.strip.getD 0 black }) =
      { s with startingColor := s.endingColor } := by
    rw [h]
    simp
  simp only [h1]
  simp

/-- The target of any fade cycle is the HSL color drawn from the random
hue at the given luminance. -/
theorem fade_ending_any (s : Machine) (hue360 dur : Nat) (lum : ℚ) :
    (FadeInFadeOutRinseRepeat s hue360 dur lum).endingColor =
      hslToRgb ((hue360 : ℚ) / 360) 1 lum := by
  cases h : s.animActive
  · exact (fade_restart_fields s hue360 dur lum h).2.1
  · exact (fade_inflight_fields s hue360 dur lum h).2

/-- Fade state with a previously displayed non-black color on pixel 0. -/
def c2State : Machine :=
  { initialState with
    strip := (List.replicate MaxPixelCount black).set 0 ⟨100, 0, 0⟩ }

/-- C2 as stated is false: after setBrightness(0) in Fade mode, the next
blend cycle starts from the displayed color (100,0,0) and fades toward
black, so mid-cycle the render writes (50,0,0), not black, to the active
pixels. -/
theorem C2_counterexample :
    (setBrightness c2State 0).1 = true ∧
    (ensureEffectIsRunning (setBrightness c2State 0).2 0 1000 0 2000).strip.getD 0
        black = ⟨50, 0, 0⟩ ∧
    (⟨50, 0, 0⟩ : RgbColor) ≠ black :=
  ⟨by decide, by with_unfolding_all decide, by decide⟩

/-- C2 amended: with brightness 0, the Solid, Off and Snake renders write
exactly black to every pixel, and every fade cycle started afterwards
targets exactly black, so a blend whose endpoints are both black writes
black; only the one blend cycle in flight or started from a non-black
displayed color still writes non-black colors while it fades down. -/
theorem C2_zero_brightness (s : Machine) (now hue360 dur : Nat) (p : ℚ) (i : Nat)
    (hb : s.brightness = 0) (hi : i < MaxPixelCount)
    (hcount : s.pixelCount ≤ MaxPixelCount) :
    ((applySolidColor s).strip.getD i black = black) ∧
    ((turnStripOff s).strip.getD i black = black) ∧
    ((s.snakeDirty = true ∨
        ¬(s.lastSnakeStepMs ≠ 0 ∧ now - s.lastSnakeStepMs < SnakeStepDelayMs)) →
      (runSnakeEffect s now).strip.getD i black = black) ∧
    ((FadeInFadeOutRinseRepeat s hue360 dur (brightnessToLuminance s)).endingColor
        = black) ∧
    (s.effect = EffectMode.Fade → s.startingColor = black → s.endingColor = black →
      (BlendAnimUpdate s p).strip.getD i black = black) := by
  refine ⟨?_, ?_, ?_, ?_, ?_⟩
  · rw [show (applySolidColor s).strip =
      (writeColorToActivePixels s (applyBrightness s s.solidColor)).strip from rfl]
    rw [applyBrightness_zero s hb s.solidColor]
    rw [strip_write_getD s black i hi, ite_self]
  · rw [show (turnStripOff s).strip = (writeColorToActivePixels s black).strip from rfl]
    rw [strip_write_getD s black i hi, ite_self]
  · intro hsnake
    by_cases hd : s.snakeDirty = true
    · rw [runSnakeEffect_dirty s now hd]
      have hrdirty : (resetSnakeEffect s).snakeDirty = false := rfl
      have hrlast : (resetSnakeEffect s).lastSnakeStepMs = 0 := rfl
      have hrfire : ¬((resetSnakeEffect s).lastSnakeStepMs ≠ 0 ∧
          now - (resetSnakeEffect s).lastSnakeStepMs < SnakeStepDelayMs) := by
        rw [hrlast]
        simp
      have hrcount : (resetSnakeEffect s).pixelCount ≤ MaxPixelCount := hcount
      obtain ⟨_, _, _, _, _, _, h7⟩ :=
        runSnakeEffect_step (resetSnakeEffect s) now hrdirty hrfire hrcount
      rw [h7 i hi]
      have hrb : (resetSnakeEffect s).brightness = 0 := hb
      rw [applyBrightness_zero (resetSnakeEffect s) hrb, scaleColor_black, ite_self]
    · have hdirty : s.snakeDirty = false := by
        revert hd
        cases s.snakeDirty <;> simp
      have hfire : ¬(s.lastSnakeStepMs ≠ 0 ∧
          now - s.lastSnakeStepMs < SnakeStepDelayMs) := by
        rcases hsnake with h | h
        · exact absurd h hd
        · exact h
      obtain ⟨_, _, _, _, _, _, h7⟩ := runSnakeEffect_step s now hdirty hfire hcount
      rw [h7 i hi]
      rw [applyBrightness_zero s hb, scaleColor_black, ite_self]
  · have hlum : brightnessToLuminance s = 0 := by
      rw [brightnessToLuminance, hb]
      simp
    rw [fade_ending_any s hue360 dur _, hlum, hslToRgb_lum_zero]
  · intro hfade hst hend
    rw [BlendAnimUpdate_fade s p hfade, hst, hend, linearBlend_black]
    rw [strip_write_getD s black i hi, ite_self]

/-- State with brightness forced to zero. -/
def c2wState : Machine := { initialState with brightness := 0 }

/-- Witness for C2_zero_brightness at brightness 0, pixel 0. -/
theorem C2_zero_brightness_witness :
    (c2wState.brightness = 0 ∧ (0 : Nat) < MaxPixelCount ∧
      c2wState.pixelCount ≤ MaxPixelCount) ∧
    (((applySolidColor c2wState).strip.getD 0 black = black) ∧
     ((turnStripOff c2wState).strip.getD 0 black = black) ∧
     ((c2wState.snakeDirty = true ∨
         ¬(c2wState.lastSnakeStepMs ≠ 0 ∧
            7 - c2wState.lastSnakeStepMs < SnakeStepDelayMs)) →
       (runSnakeEffect c2wState 7).strip.getD 0 black = black) ∧
     ((FadeInFadeOutRinseRepeat c2wState 3 2500
        (brightnessToLuminance c2wState)).endingColor = black) ∧
     (c2wState.effect = EffectMode.Fade → c2wState.startingColor = black →
       c2wState.endingColor = black →
       (BlendAnimUpdate c2wState (1 / 2)).strip.getD 0 black = black)) :=
  ⟨⟨by decide, by decide, by decide⟩,
   C2_zero_brightness c2wState 7 3 2500 (1 / 2) 0 (by decide) (by decide) (by decide)⟩

/-- C3: if the in-flight fade cycle completes on one dispatch tick, the
cycle started by the next tick begins exactly at the completed cycle's
ending color (the completion wrote that color to the strip and the
restart reads pixel 0 back); on a first activation (idle animator) the
new cycle begins at the color displayed on pixel 0. -/
theorem C3_fade_continuity (s s0 : Machine)
    (now1 delta1 hue1 dur1 now2 delta2 hue2 dur2 now0 delta0 hue0 dur0 : Nat)
    (hfade : s.effect = EffectMode.Fade)
    (hcount : 1 ≤ s.pixelCount)
    (hact : s.animActive = true)
    (hdur : 0 < s.animDuration)
    (hrem : s.animRemaining ≤ delta1) :
    (ensureEffectIsRunning (ensureEffectIsRunning s now1 delta1 hue1 dur1)
        now2 delta2 hue2 dur2).startingColor = s.endingColor ∧
    (s0.effect = EffectMode.Fade → s0.animActive = false →
      (ensureEffectIsRunning s0 now0 delta0 hue0 dur0).startingColor =
        s0.strip.getD 0 black) := by
  constructor
  · have h1 : ensureEffectIsRunning s now1 delta1 hue1 dur1 =
        UpdateAnimations { s with offDirty := true, solidDirty := true } delta1 :=
      ensure_fade_active s now1 delta1 hue1 dur1 hfade hact
    have hcomp : UpdateAnimations { s with offDirty := true, solidDirty := true } delta1 =
        { writeColorToActivePixels { s with offDirty := true, solidDirty := true }
            ({ s with offDirty := true, solidDirty := true } : Machine).endingColor with
          animActive := false, animRemaining := 0 } :=
      UpdateAnimations_complete { s with offDirty := true, solidDirty := true }
        delta1 hact hdur hrem hfade
    have h2 : ensureEffectIsRunning s now1 delta1 hue1 dur1 =
        { writeColorToActivePixels { s with offDirty := true, solidDirty := true }
            ({ s with offDirty := true, solidDirty := true } : Machine).endingColor with
          animActive := false, animRemaining := 0 } := by
      rw [h1, hcomp]
    have h1fade : (ensureEffectIsRunning s now1 delta1 hue1 dur1).effect =
        EffectMode.Fade := by
      rw [h2]
      exact hfade
    have h1act : (ensureEffectIsRunning s now1 delta1 hue1 dur1).animActive = false := by
      rw [h2]
    rw [ensure_fade_inactive (ensureEffectIsRunning s now1 delta1 hue1 dur1)
      now2 delta2 hue2 dur2 h1fade h1act]
    rw [(UpdateAnimations_frame _ delta2).1]
    rw [(fade_restart_fields _ hue2 dur2 _
      (show ({ ensureEffectIsRunning s now1 delta1 hue1 dur1 with
        offDirty := true, solidDirty := true } : Machine).animActive = false from h1act)).1]
    show (ensureEffectIsRunning s now1 delta1 hue1 dur1).strip.getD 0 black =
      s.endingColor
    rw [h2]
    show (writeColorToActivePixels { s with offDirty := true, solidDirty := true }
        ({ s with offDirty := true, solidDirty := true } : Machine).endingColor).strip.getD
        0 black = s.endingColor
    rw [strip_write_getD _ _ 0 (by rw [MaxPixelCount]; omega)]
    exact if_pos hcount
  · intro h0fade h0act
    rw [ensure_fade_inactive s0 now0 delta0 hue0 dur0 h0fade h0act]
    rw [(UpdateAnimations_frame _ delta0).1]
    rw [(fade_restart_fields _ hue0 dur0 _
      (show ({ s0 with offDirty := true, solidDirty := true } : Machine).animActive =
        false from h0act)).1]

/-- Fade state mid-blend: active animator, 500 time units remaining. -/
def c3State : Machine :=
  { initialState with
    animActive := true
    animDuration := 2000
    animRemaining := 500
    endingColor := ⟨10, 20, 30⟩ }

/-- Witness for C3_fade_continuity: the cycle completes under a 1000 unit
advance and the next cycle starts from its ending color (10,20,30). -/
theorem C3_fade_continuity_witness :
    (c3State.effect = EffectMode.Fade ∧ 1 ≤ c3State.pixelCount ∧
      c3State.animActive = true ∧ 0 < c3State.animDuration ∧
      c3State.animRemaining ≤ 1000) ∧
    ((ensureEffectIsRunning (ensureEffectIsRunning c3State 0 1000 0 2000)
        0 0 0 2000).startingColor = c3State.endingColor ∧
     (initialState.effect = EffectMode.Fade → initialState.animActive = false →
       (ensureEffectIsRunning initialState 0 0 0 2000).startingColor =
         initialState.strip.getD 0 black)) :=
  ⟨⟨by decide, by decide, by decide, by decide, by decide⟩,
   C3_fade_continuity c3State initialState 0 1000 0 2000 0 0 0 2000 0 0 0 2000
     (by decide) (by decide) (by decide) (by decide) (by decide)⟩

end NeoPixelCtrl
